import Mathlib

/-!
Verification of `monitor.py`: a one-shot system-health snapshot tool.

The program queries a system-metrics library (psutil) for CPU, memory,
disk-usage and disk-I/O statistics, assembles them into one flat record
(`get_system_health`, lines 11-35) and prints it as JSON with
`print(json.dumps(record, indent=4))` (line 37).

The embedding models the metrics library as a `MetricsSource`: for each
query family, a function from the call index (how many calls to that
family happened before) to the result of that call.  This captures that
the source code calls `psutil.virtual_memory()` four separate times
(lines 25-28) and `psutil.disk_usage('/')` four separate times
(lines 29-32), so the four calls of one family may disagree or fail
independently.  Byte counts are modelled as `Int` (Python ints), float
percentages as `Rat`; no arithmetic is ever performed on them by the
program, so the rendering of a float is kept abstract as a parameter
`fr : Rat → String` standing for Python float repr.
-/

/-- Result of one `psutil.virtual_memory()` call (the fields the program reads). -/
structure VirtualMemory where
  total : Int
  available : Int
  used : Int
  percent : Rat
  deriving DecidableEq, Repr

/-- Result of one `psutil.disk_usage(path)` call (the fields the program reads). -/
structure DiskUsage where
  total : Int
  used : Int
  free : Int
  percent : Rat
  deriving DecidableEq, Repr

/-- Result of one successful `psutil.disk_io_counters()` call (the fields the program reads). -/
structure DiskIOCounters where
  read_bytes : Int
  write_bytes : Int
  deriving DecidableEq, Repr

/-- The failure taxonomy of the metrics library, as named by the design
document: the library signals either that the OS denied or could not supply
a metric, or that the requested filesystem path does not exist. -/
inductive PsutilErr where
  | metricsUnavailable
  | filesystemNotFound
  deriving DecidableEq, Repr

/-- One of the four OS query families issued by `get_system_health`. -/
inductive Query where
  | ioCounters
  | cpuPercent
  | virtualMemory
  | diskUsage (path : String)
  deriving DecidableEq, Repr

/-- A metrics source: for each query family, the result of its `n`-th call
(`n` counts previous calls to the same family).  `disk_io_counters` may
succeed with `none`, modelling psutil returning `None` on systems with no
disks. -/
structure MetricsSource where
  cpu_percent : Nat → Except PsutilErr Rat
  virtual_memory : Nat → Except PsutilErr VirtualMemory
  disk_usage : String → Nat → Except PsutilErr DiskUsage
  disk_io_counters : Nat → Except PsutilErr (Option DiskIOCounters)

/-- A run of `get_system_health` fails either because a psutil query raised
(`queryFailed` records the family, the call index within that family, and
the library error), or with the Python `AttributeError` raised at line 19
(`disk_io_counters.read_bytes`) when `psutil.disk_io_counters()` returned
`None`. -/
inductive Failure where
  | queryFailed (q : Query) (call : Nat) (e : PsutilErr)
  | noneAttr
  deriving DecidableEq, Repr

/-- The record assembled by `get_system_health` (lines 22-35): the twelve
fields of the dict literal, in source order. -/
structure HealthRecord where
  status : String
  cpu_usage : Rat
  memory_total : Int
  memory_available : Int
  memory_used : Int
  memory_percent : Rat
  disk_total : Int
  disk_used : Int
  disk_free : Int
  disk_percent : Rat
  disk_read_bytes : Int
  disk_write_bytes : Int
  deriving DecidableEq, Repr

/-- Embedding of `get_system_health` (monitor.py lines 11-35), paired with
the sequence of psutil queries the run issued, in order.  Python evaluation
order: line 18 calls `psutil.disk_io_counters()` first; lines 19-20 access
`.read_bytes` / `.write_bytes` on the result (raising `AttributeError` if it
is `None`); then the dict literal of lines 22-34 evaluates its values top to
bottom: `cpu_percent(interval=1)`, four `virtual_memory()` calls, four
`disk_usage('/')` calls.  An uncaught exception aborts the whole call. -/
def get_system_health (src : MetricsSource) :
    Except Failure HealthRecord × List Query :=
  match src.disk_io_counters 0 with
  | .error e => (.error (.queryFailed .ioCounters 0 e), [.ioCounters])
  | .ok none => (.error .noneAttr, [.ioCounters])
  | .ok (some dio) =>
    let disk_read_bytes := dio.read_bytes
    let disk_write_bytes := dio.write_bytes
    match src.cpu_percent 0 with
    | .error e => (.error (.queryFailed .cpuPercent 0 e), [.ioCounters, .cpuPercent])
    | .ok cpu =>
      match src.virtual_memory 0 with
      | .error e => (.error (.queryFailed .virtualMemory 0 e),
          [.ioCounters, .cpuPercent, .virtualMemory])
      | .ok vm0 =>
      match src.virtual_memory 1 with
      | .error e => (.error (.queryFailed .virtualMemory 1 e),
          [.ioCounters, .cpuPercent, .virtualMemory, .virtualMemory])
      | .ok vm1 =>
      match src.virtual_memory 2 with
      | .error e => (.error (.queryFailed .virtualMemory 2 e),
          [.ioCounters, .cpuPercent, .virtualMemory, .virtualMemory, .virtualMemory])
      | .ok vm2 =>
      match src.virtual_memory 3 with
      | .error e => (.error (.queryFailed .virtualMemory 3 e),
          [.ioCounters, .cpuPercent, .virtualMemory, .virtualMemory, .virtualMemory,
           .virtualMemory])
      | .ok vm3 =>
      match src.disk_usage "/" 0 with
      | .error e => (.error (.queryFailed (.diskUsage "/") 0 e),
          [.ioCounters, .cpuPercent, .virtualMemory, .virtualMemory, .virtualMemory,
           .virtualMemory, .diskUsage "/"])
      | .ok du0 =>
      match src.disk_usage "/" 1 with
      | .error e => (.error (.queryFailed (.diskUsage "/") 1 e),
          [.ioCounters, .cpuPercent, .virtualMemory, .virtualMemory, .virtualMemory,
           .virtualMemory, .diskUsage "/", .diskUsage "/"])
      | .ok du1 =>
      match src.disk_usage "/" 2 with
      | .error e => (.error (.queryFailed (.diskUsage "/") 2 e),
          [.ioCounters, .cpuPercent, .virtualMemory, .virtualMemory, .virtualMemory,
           .virtualMemory, .diskUsage "/", .diskUsage "/", .diskUsage "/"])
      | .ok du2 =>
      match src.disk_usage "/" 3 with
      | .error e => (.error (.queryFailed (.diskUsage "/") 3 e),
          [.ioCounters, .cpuPercent, .virtualMemory, .virtualMemory, .virtualMemory,
           .virtualMemory, .diskUsage "/", .diskUsage "/", .diskUsage "/", .diskUsage "/"])
      | .ok du3 =>
        (.ok { status := "healthy"
               cpu_usage := cpu
               memory_total := vm0.total
               memory_available := vm1.available
               memory_used := vm2.used
               memory_percent := vm3.percent
               disk_total := du0.total
               disk_used := du1.used
               disk_free := du2.free
               disk_percent := du3.percent
               disk_read_bytes := disk_read_bytes
               disk_write_bytes := disk_write_bytes },
         [.ioCounters, .cpuPercent, .virtualMemory, .virtualMemory, .virtualMemory,
          .virtualMemory, .diskUsage "/", .diskUsage "/", .diskUsage "/", .diskUsage "/"])

/-- The full schedule of queries of one successful run, in issue order. -/
def fullSchedule : List Query :=
  [.ioCounters, .cpuPercent, .virtualMemory, .virtualMemory, .virtualMemory,
   .virtualMemory, .diskUsage "/", .diskUsage "/", .diskUsage "/", .diskUsage "/"]

/-! ## Serialization: `json.dumps(record, indent=4)` and the process boundary -/

/-- A JSON value of the shapes the record holds: string, Python int, Python float. -/
inductive JVal where
  | jstr (s : String)
  | jint (n : Int)
  | jfloat (q : Rat)
  deriving DecidableEq, Repr

/-- JSON rendering of a string (the strings of this program - field
names and "healthy" - contain no characters needing an escape). -/
def renderJStr (s : String) : String := "\"" ++ s ++ "\""

/-- JSON rendering of a scalar value; `fr` is the Python float repr. -/
def renderJVal (fr : Rat → String) : JVal → String
  | .jstr s => renderJStr s
  | .jint n => toString n
  | .jfloat q => fr q

/-- One member line of `json.dumps(d, indent=4)`: four spaces of indent,
quoted key, colon-space, value. -/
def memberLine (fr : Rat → String) (kv : String × JVal) : String :=
  "    " ++ renderJStr kv.1 ++ ": " ++ renderJVal fr kv.2

/-- The comma-joined member lines of `json.dumps(d, indent=4)`. -/
def membersBody (fr : Rat → String) : List (String × JVal) → String
  | [] => ""
  | [kv] => memberLine fr kv
  | kv :: rest => memberLine fr kv ++ ",\n" ++ membersBody fr rest

/-- `json.dumps(d, indent=4)` for a flat dict `d` of scalar values, keys in
insertion order. -/
def dumps (fr : Rat → String) (kvs : List (String × JVal)) : String :=
  match kvs with
  | [] => "\x7b\x7d"
  | _ => "\x7b\n" ++ membersBody fr kvs ++ "\n\x7d"

/-- The dict built by the `return` of lines 22-35, as an ordered
association list: the twelve keys in the order of the dict literal. -/
def healthDict (r : HealthRecord) : List (String × JVal) :=
  [("status", .jstr r.status),
   ("cpu_usage", .jfloat r.cpu_usage),
   ("memory_total", .jint r.memory_total),
   ("memory_available", .jint r.memory_available),
   ("memory_used", .jint r.memory_used),
   ("memory_percent", .jfloat r.memory_percent),
   ("disk_total", .jint r.disk_total),
   ("disk_used", .jint r.disk_used),
   ("disk_free", .jint r.disk_free),
   ("disk_percent", .jfloat r.disk_percent),
   ("disk_read_bytes", .jint r.disk_read_bytes),
   ("disk_write_bytes", .jint r.disk_write_bytes)]

/-- What line 37 writes to standard output: on success, the single blob
`json.dumps(get_system_health(), indent=4)` plus the newline `print` appends;
on failure nothing, since the argument of `print` raises before `print` runs. -/
def stdoutOf (fr : Rat → String) (src : MetricsSource) : Option String :=
  match (get_system_health src).1 with
  | .ok r => some (dumps fr (healthDict r) ++ "\n")
  | .error _ => none

/-- Process exit code: 0 when line 37 completes, 1 when an uncaught
exception terminates the interpreter. -/
def exitCodeOf (src : MetricsSource) : Nat :=
  match (get_system_health src).1 with
  | .ok _ => 0
  | .error _ => 1

/-- The source line of monitor.py shown in the traceback frame where the
failure surfaced.  Calls outside the shapes the program issues map to ""
(they are never produced). -/
def failingSourceLine : Failure → String
  | .queryFailed .ioCounters 0 _ => "disk_io_counters = psutil.disk_io_counters()"
  | .noneAttr => "disk_read_bytes = disk_io_counters.read_bytes"
  | .queryFailed .cpuPercent 0 _ => "\"cpu_usage\": psutil.cpu_percent(interval=1),"
  | .queryFailed .virtualMemory 0 _ => "\"memory_total\": psutil.virtual_memory().total,"
  | .queryFailed .virtualMemory 1 _ => "\"memory_available\": psutil.virtual_memory().available,"
  | .queryFailed .virtualMemory 2 _ => "\"memory_used\": psutil.virtual_memory().used,"
  | .queryFailed .virtualMemory 3 _ => "\"memory_percent\": psutil.virtual_memory().percent,"
  | .queryFailed (.diskUsage _) 0 _ => "\"disk_total\": psutil.disk_usage(\x27/\x27).total,"
  | .queryFailed (.diskUsage _) 1 _ => "\"disk_used\": psutil.disk_usage(\x27/\x27).used,"
  | .queryFailed (.diskUsage _) 2 _ => "\"disk_free\": psutil.disk_usage(\x27/\x27).free,"
  | .queryFailed (.diskUsage _) 3 _ => "\"disk_percent\": psutil.disk_usage(\x27/\x27).percent,"
  | .queryFailed _ _ _ => ""

/-- The Python exception class name of a failure, using the names the
design document gives the two library errors. -/
def failureClass : Failure → String
  | .queryFailed _ _ .metricsUnavailable => "MetricsUnavailableError"
  | .queryFailed _ _ .filesystemNotFound => "FilesystemNotFoundError"
  | .noneAttr => "AttributeError"

/-- What an uncaught exception prints on standard error: the traceback
frame line of monitor.py followed by the exception class (empty on
success). -/
def stderrOf (src : MetricsSource) : String :=
  match (get_system_health src).1 with
  | .ok _ => ""
  | .error f =>
      "Traceback (most recent call last):\n    " ++ failingSourceLine f
        ++ "\n" ++ failureClass f

/-- The psutil function name identifying the metric category a failure
belongs to (CPU, memory, disk usage, or I/O counters). -/
def categoryToken : Failure → String
  | .queryFailed .cpuPercent _ _ => "cpu_percent"
  | .queryFailed .virtualMemory _ _ => "virtual_memory"
  | .queryFailed (.diskUsage _) _ _ => "disk_usage"
  | .queryFailed .ioCounters _ _ => "disk_io_counters"
  | .noneAttr => "disk_io_counters"

/-! ## Concrete metrics sources used as witnesses -/

/-- The mocked memory statistics of the design document's test vector. -/
def mockVM : VirtualMemory :=
  { total := 16000000000, available := 8000000000, used := 8000000000, percent := 50 }

/-- The mocked disk-usage statistics of the design document's test vector. -/
def mockDU : DiskUsage :=
  { total := 500000000000, used := 250000000000, free := 250000000000, percent := 50 }

/-- The mocked disk-I/O counters of the design document's test vector. -/
def mockDio : DiskIOCounters := { read_bytes := 1000, write_bytes := 2000 }

/-- The static mocked metrics source of the design document's test vector:
every call of a family returns the same value, every call succeeds. -/
def mockSrc : MetricsSource where
  cpu_percent := fun _ => .ok (12.5 : Rat)
  virtual_memory := fun _ => .ok mockVM
  disk_usage := fun _ _ => .ok mockDU
  disk_io_counters := fun _ => .ok (some mockDio)

/-- A source identical to the mock except that `psutil.disk_io_counters()`
returns `None` (as psutil does on systems with no disks). -/
def noneSrc : MetricsSource where
  cpu_percent := fun _ => .ok (12.5 : Rat)
  virtual_memory := fun _ => .ok mockVM
  disk_usage := fun _ _ => .ok mockDU
  disk_io_counters := fun _ => .ok none

/-- A source whose memory query always fails with the library's
metrics-unavailable error. -/
def memFailSrc : MetricsSource where
  cpu_percent := fun _ => .ok (12.5 : Rat)
  virtual_memory := fun _ => .error .metricsUnavailable
  disk_usage := fun _ _ => .ok mockDU
  disk_io_counters := fun _ => .ok (some mockDio)

/-- A source whose memory query succeeds three times and fails on its
fourth call: the first three dict fields get values, then collection aborts. -/
def vmFourthFailSrc : MetricsSource where
  cpu_percent := fun _ => .ok (12.5 : Rat)
  virtual_memory := fun n => if n < 3 then .ok mockVM else .error .metricsUnavailable
  disk_usage := fun _ _ => .ok mockDU
  disk_io_counters := fun _ => .ok (some mockDio)

/-- A source whose memory statistics drift between the four calls: the
`percent` read on the fourth call does not match the `total` and `used`
read on the first and third calls. -/
def driftSrc : MetricsSource where
  cpu_percent := fun _ => .ok (12.5 : Rat)
  virtual_memory := fun n =>
    .ok { total := 100, available := 50, used := 50,
          percent := if n = 3 then 99 else 50 }
  disk_usage := fun _ _ => .ok mockDU
  disk_io_counters := fun _ => .ok (some mockDio)

/-! ## Elimination lemmas: what a run's outcome reveals about the queries -/

/-- A successful run determines all ten query results and the record is a
verbatim pass-through of them. -/
lemma gsh_ok_elim (src : MetricsSource) (r : HealthRecord) (t : List Query) :
    get_system_health src = (.ok r, t) →
    ∃ dio cpu vm0 vm1 vm2 vm3 du0 du1 du2 du3,
      src.disk_io_counters 0 = .ok (some dio) ∧
      src.cpu_percent 0 = .ok cpu ∧
      src.virtual_memory 0 = .ok vm0 ∧
      src.virtual_memory 1 = .ok vm1 ∧
      src.virtual_memory 2 = .ok vm2 ∧
      src.virtual_memory 3 = .ok vm3 ∧
      src.disk_usage "/" 0 = .ok du0 ∧
      src.disk_usage "/" 1 = .ok du1 ∧
      src.disk_usage "/" 2 = .ok du2 ∧
      src.disk_usage "/" 3 = .ok du3 ∧
      r = { status := "healthy", cpu_usage := cpu,
            memory_total := vm0.total, memory_available := vm1.available,
            memory_used := vm2.used, memory_percent := vm3.percent,
            disk_total := du0.total, disk_used := du1.used,
            disk_free := du2.free, disk_percent := du3.percent,
            disk_read_bytes := dio.read_bytes, disk_write_bytes := dio.write_bytes } ∧
      t = fullSchedule := by
  unfold get_system_health
  cases hio : src.disk_io_counters 0 with
  | error e => simp
  | ok dioOpt =>
    cases dioOpt with
    | none => simp
    | some dio =>
      cases hcpu : src.cpu_percent 0 with
      | error e => simp
      | ok cpu =>
        cases hv0 : src.virtual_memory 0 with
        | error e => simp
        | ok vm0 =>
          cases hv1 : src.virtual_memory 1 with
          | error e => simp
          | ok vm1 =>
            cases hv2 : src.virtual_memory 2 with
            | error e => simp
            | ok vm2 =>
              cases hv3 : src.virtual_memory 3 with
              | error e => simp
              | ok vm3 =>
                cases hd0 : src.disk_usage "/" 0 with
                | error e => simp
                | ok du0 =>
                  cases hd1 : src.disk_usage "/" 1 with
                  | error e => simp
                  | ok du1 =>
                    cases hd2 : src.disk_usage "/" 2 with
                    | error e => simp
                    | ok du2 =>
                      cases hd3 : src.disk_usage "/" 3 with
                      | error e => simp
                      | ok du3 =>
                        intro h
                        simp only [Prod.mk.injEq, Except.ok.injEq] at h
                        obtain ⟨hr, ht⟩ := h
                        exact ⟨dio, cpu, vm0, vm1, vm2, vm3, du0, du1, du2, du3,
                          rfl, rfl, rfl, rfl, rfl, rfl, rfl, rfl, rfl, rfl,
                          hr.symm, ht.symm⟩

/-- A failed run is either the `AttributeError` on a `None` I/O-counter
result, or the propagated library error of the exact query that failed; the
run aborts at that query (the issued-query list is the schedule cut off
there) and no later query is issued. -/
lemma gsh_error_elim (src : MetricsSource) (e : Failure) (t : List Query) :
    get_system_health src = (.error e, t) →
    (e = .noneAttr ∧ src.disk_io_counters 0 = .ok none ∧ t = fullSchedule.take 1) ∨
    ∃ pe,
      (e = .queryFailed .ioCounters 0 pe ∧ src.disk_io_counters 0 = .error pe ∧
        t = fullSchedule.take 1) ∨
      (e = .queryFailed .cpuPercent 0 pe ∧ src.cpu_percent 0 = .error pe ∧
        t = fullSchedule.take 2) ∨
      (∃ n, n < 4 ∧ e = .queryFailed .virtualMemory n pe ∧
        src.virtual_memory n = .error pe ∧ t = fullSchedule.take (3 + n)) ∨
      (∃ n, n < 4 ∧ e = .queryFailed (.diskUsage "/") n pe ∧
        src.disk_usage "/" n = .error pe ∧ t = fullSchedule.take (7 + n)) := by
  unfold get_system_health
  cases hio : src.disk_io_counters 0 with
  | error pe =>
    intro h
    simp only [Prod.mk.injEq, Except.error.injEq] at h
    obtain ⟨he, ht⟩ := h
    subst he; subst ht
    exact Or.inr ⟨pe, Or.inl ⟨rfl, rfl, by decide⟩⟩
  | ok dioOpt =>
    cases dioOpt with
    | none =>
      intro h
      simp only [Prod.mk.injEq, Except.error.injEq] at h
      obtain ⟨he, ht⟩ := h
      subst he; subst ht
      exact Or.inl ⟨rfl, rfl, by decide⟩
    | some dio =>
      cases hcpu : src.cpu_percent 0 with
      | error pe =>
        intro h
        simp only [Prod.mk.injEq, Except.error.injEq] at h
        obtain ⟨he, ht⟩ := h
        subst he; subst ht
        exact Or.inr ⟨pe, Or.inr (Or.inl ⟨rfl, rfl, by decide⟩)⟩
      | ok cpu =>
        cases hv0 : src.virtual_memory 0 with
        | error pe =>
          intro h
          simp only [Prod.mk.injEq, Except.error.injEq] at h
          obtain ⟨he, ht⟩ := h
          subst he; subst ht
          exact Or.inr ⟨pe, Or.inr (Or.inr (Or.inl
            ⟨0, by norm_num, rfl, hv0, by decide⟩))⟩
        | ok vm0 =>
          cases hv1 : src.virtual_memory 1 with
          | error pe =>
            intro h
            simp only [Prod.mk.injEq, Except.error.injEq] at h
            obtain ⟨he, ht⟩ := h
            subst he; subst ht
            exact Or.inr ⟨pe, Or.inr (Or.inr (Or.inl
              ⟨1, by norm_num, rfl, hv1, by decide⟩))⟩
          | ok vm1 =>
            cases hv2 : src.virtual_memory 2 with
            | error pe =>
              intro h
              simp only [Prod.mk.injEq, Except.error.injEq] at h
              obtain ⟨he, ht⟩ := h
              subst he; subst ht
              exact Or.inr ⟨pe, Or.inr (Or.inr (Or.inl
                ⟨2, by norm_num, rfl, hv2, by decide⟩))⟩
            | ok vm2 =>
              cases hv3 : src.virtual_memory 3 with
              | error pe =>
                intro h
                simp only [Prod.mk.injEq, Except.error.injEq] at h
                obtain ⟨he, ht⟩ := h
                subst he; subst ht
                exact Or.inr ⟨pe, Or.inr (Or.inr (Or.inl
                  ⟨3, by norm_num, rfl, hv3, by decide⟩))⟩
              | ok vm3 =>
                cases hd0 : src.disk_usage "/" 0 with
                | error pe =>
                  intro h
                  simp only [Prod.mk.injEq, Except.error.injEq] at h
                  obtain ⟨he, ht⟩ := h
                  subst he; subst ht
                  exact Or.inr ⟨pe, Or.inr (Or.inr (Or.inr
                    ⟨0, by norm_num, rfl, hd0, by decide⟩))⟩
                | ok du0 =>
                  cases hd1 : src.disk_usage "/" 1 with
                  | error pe =>
                    intro h
                    simp only [Prod.mk.injEq, Except.error.injEq] at h
                    obtain ⟨he, ht⟩ := h
                    subst he; subst ht
                    exact Or.inr ⟨pe, Or.inr (Or.inr (Or.inr
                      ⟨1, by norm_num, rfl, hd1, by decide⟩))⟩
                  | ok du1 =>
                    cases hd2 : src.disk_usage "/" 2 with
                    | error pe =>
                      intro h
                      simp only [Prod.mk.injEq, Except.error.injEq] at h
                      obtain ⟨he, ht⟩ := h
                      subst he; subst ht
                      exact Or.inr ⟨pe, Or.inr (Or.inr (Or.inr
                        ⟨2, by norm_num, rfl, hd2, by decide⟩))⟩
                    | ok du2 =>
                      cases hd3 : src.disk_usage "/" 3 with
                      | error pe =>
                        intro h
                        simp only [Prod.mk.injEq, Except.error.injEq] at h
                        obtain ⟨he, ht⟩ := h
                        subst he; subst ht
                        exact Or.inr ⟨pe, Or.inr (Or.inr (Or.inr
                          ⟨3, by norm_num, rfl, hd3, by decide⟩))⟩
                      | ok du3 => simp

/-- The record the mocked source of the design document's test vector
produces: its twelve values plus the constant status. -/
def mockRecord : HealthRecord :=
  { status := "healthy", cpu_usage := 12.5,
    memory_total := 16000000000, memory_available := 8000000000,
    memory_used := 8000000000, memory_percent := 50,
    disk_total := 500000000000, disk_used := 250000000000,
    disk_free := 250000000000, disk_percent := 50,
    disk_read_bytes := 1000, disk_write_bytes := 2000 }

/-! ## Claim theorems -/

/-- C1: every successful run emits a record that reproduces verbatim the
values returned by the source's queries - the CPU percentage of the one CPU
call, the memory total/available/used/percent read from the four
virtual-memory calls, the disk total/used/free/percent read from the four
disk-usage calls, and the read/write byte counters of the I/O-counters call -
plus the constant field status = "healthy"; no numeric value is transformed. -/
theorem c1_pure_passthrough (src : MetricsSource) (r : HealthRecord)
    (t : List Query) (h : get_system_health src = (.ok r, t)) :
    ∃ dio cpu vm0 vm1 vm2 vm3 du0 du1 du2 du3,
      src.disk_io_counters 0 = .ok (some dio) ∧
      src.cpu_percent 0 = .ok cpu ∧
      src.virtual_memory 0 = .ok vm0 ∧
      src.virtual_memory 1 = .ok vm1 ∧
      src.virtual_memory 2 = .ok vm2 ∧
      src.virtual_memory 3 = .ok vm3 ∧
      src.disk_usage "/" 0 = .ok du0 ∧
      src.disk_usage "/" 1 = .ok du1 ∧
      src.disk_usage "/" 2 = .ok du2 ∧
      src.disk_usage "/" 3 = .ok du3 ∧
      r = { status := "healthy", cpu_usage := cpu,
            memory_total := vm0.total, memory_available := vm1.available,
            memory_used := vm2.used, memory_percent := vm3.percent,
            disk_total := du0.total, disk_used := du1.used,
            disk_free := du2.free, disk_percent := du3.percent,
            disk_read_bytes := dio.read_bytes,
            disk_write_bytes := dio.write_bytes } := by
  obtain ⟨dio, cpu, vm0, vm1, vm2, vm3, du0, du1, du2, du3,
    h1, h2, h3, h4, h5, h6, h7, h8, h9, h10, hr, _⟩ := gsh_ok_elim src r t h
  exact ⟨dio, cpu, vm0, vm1, vm2, vm3, du0, du1, du2, du3,
    h1, h2, h3, h4, h5, h6, h7, h8, h9, h10, hr⟩

/-- C1 witness: on the design document's mocked source the run succeeds and
the emitted record is exactly the twelve mocked values plus
status = "healthy". -/
theorem c1_pure_passthrough_witness :
    ∃ dio cpu vm0 vm1 vm2 vm3 du0 du1 du2 du3,
      mockSrc.disk_io_counters 0 = .ok (some dio) ∧
      mockSrc.cpu_percent 0 = .ok cpu ∧
      mockSrc.virtual_memory 0 = .ok vm0 ∧
      mockSrc.virtual_memory 1 = .ok vm1 ∧
      mockSrc.virtual_memory 2 = .ok vm2 ∧
      mockSrc.virtual_memory 3 = .ok vm3 ∧
      mockSrc.disk_usage "/" 0 = .ok du0 ∧
      mockSrc.disk_usage "/" 1 = .ok du1 ∧
      mockSrc.disk_usage "/" 2 = .ok du2 ∧
      mockSrc.disk_usage "/" 3 = .ok du3 ∧
      mockRecord = { status := "healthy", cpu_usage := cpu,
                     memory_total := vm0.total, memory_available := vm1.available,
                     memory_used := vm2.used, memory_percent := vm3.percent,
                     disk_total := du0.total, disk_used := du1.used,
                     disk_free := du2.free, disk_percent := du3.percent,
                     disk_read_bytes := dio.read_bytes,
                     disk_write_bytes := dio.write_bytes } :=
  c1_pure_passthrough mockSrc mockRecord fullSchedule (by rfl)

/-- C3: for every source and run outcome, a successfully emitted record has
status equal to the literal "healthy"; no input produces another status. -/
theorem c3_status_always_healthy (src : MetricsSource) (r : HealthRecord)
    (t : List Query) (h : get_system_health src = (.ok r, t)) :
    r.status = "healthy" := by
  obtain ⟨_, _, _, _, _, _, _, _, _, _, _, _, _, _, _, _, _, _, _, _, hr, _⟩ :=
    gsh_ok_elim src r t h
  rw [hr]

/-- C3 witness: the record of the mocked run has status "healthy". -/
theorem c3_status_always_healthy_witness : mockRecord.status = "healthy" :=
  c3_status_always_healthy mockSrc mockRecord fullSchedule (by rfl)

/-- C9: when the disk-I/O-counter query returns no data (psutil's `None`),
the attribute access of line 19 fails with `AttributeError`, the run aborts
after that single query, and nothing is written to standard output - the
counters are not reported as zero and the two I/O fields are not omitted
from a partial record, because no record exists. -/
theorem c9_none_counters_abort (fr : Rat → String) (src : MetricsSource)
    (h : src.disk_io_counters 0 = .ok none) :
    get_system_health src = (.error .noneAttr, [.ioCounters]) ∧
    stdoutOf fr src = none := by
  have hg : get_system_health src = (.error .noneAttr, [.ioCounters]) := by
    unfold get_system_health
    rw [h]
  refine ⟨hg, ?_⟩
  unfold stdoutOf
  rw [hg]

/-- C9 witness: a source equal to the mock except for a `None` I/O-counter
result aborts with the `AttributeError` and produces no output. -/
theorem c9_none_counters_abort_witness :
    get_system_health noneSrc = (.error .noneAttr, [.ioCounters]) ∧
    stdoutOf (fun _ => "0.0") noneSrc = none :=
  c9_none_counters_abort (fun _ => "0.0") noneSrc (by rfl)

/-- C4: when any OS query fails, the whole operation aborts: standard
output receives nothing (there is no partial record), and no retry occurs -
the issued-query sequence is the fixed schedule cut off at the failing
query, so no query is re-issued and nothing runs after the failure. -/
theorem c4_failure_aborts_run (fr : Rat → String) (src : MetricsSource)
    (e : Failure) (t : List Query)
    (h : get_system_health src = (.error e, t)) :
    stdoutOf fr src = none ∧ ∃ n, n ≤ 10 ∧ t = fullSchedule.take n := by
  have hs : stdoutOf fr src = none := by
    unfold stdoutOf
    rw [h]
  refine ⟨hs, ?_⟩
  rcases gsh_error_elim src e t h with ⟨_, _, ht⟩ | ⟨pe, h1 | h2 | h3 | h4⟩
  · exact ⟨1, by norm_num, ht⟩
  · exact ⟨1, by norm_num, h1.2.2⟩
  · exact ⟨2, by norm_num, h2.2.2⟩
  · obtain ⟨n, hn, _, _, ht⟩ := h3
    exact ⟨3 + n, by omega, ht⟩
  · obtain ⟨n, hn, _, _, ht⟩ := h4
    exact ⟨7 + n, by omega, ht⟩

/-- C4 witness: with the memory query failing, nothing is printed and the
run stopped at the third query of the schedule. -/
theorem c4_failure_aborts_run_witness :
    stdoutOf (fun _ => "0.0") memFailSrc = none ∧
    ∃ n, n ≤ 10 ∧
      [Query.ioCounters, Query.cpuPercent, Query.virtualMemory] =
        fullSchedule.take n :=
  c4_failure_aborts_run (fun _ => "0.0") memFailSrc
    (.queryFailed .virtualMemory 0 .metricsUnavailable)
    [.ioCounters, .cpuPercent, .virtualMemory] (by rfl)

/-- C6 counterexample: on the design document's mocked source the first
query issued is the disk-I/O-counters query, not the CPU sample, and the
last query issued is a root-filesystem-usage query, not the I/O-counters
query - refuting the claimed order (CPU first, I/O counters last). -/
theorem c6_counterexample_order :
    (get_system_health mockSrc).2.head? = some Query.ioCounters ∧
    Query.ioCounters ≠ Query.cpuPercent ∧
    (get_system_health mockSrc).2.getLast? = some (Query.diskUsage "/") ∧
    Query.diskUsage "/" ≠ Query.ioCounters :=
  ⟨by rfl, by decide, by rfl, by decide⟩

/-- C6 (amended): during every successful collection the queries are issued
in the order: disk-I/O counters first (line 18), then the CPU sample, then
the four virtual-memory queries, then the four root-filesystem-usage
queries last. -/
theorem c6_amended_query_order (src : MetricsSource) (r : HealthRecord)
    (t : List Query) (h : get_system_health src = (.ok r, t)) :
    t = [Query.ioCounters, Query.cpuPercent,
         Query.virtualMemory, Query.virtualMemory, Query.virtualMemory,
         Query.virtualMemory,
         Query.diskUsage "/", Query.diskUsage "/", Query.diskUsage "/",
         Query.diskUsage "/"] := by
  obtain ⟨_, _, _, _, _, _, _, _, _, _, _, _, _, _, _, _, _, _, _, _, _, ht⟩ :=
    gsh_ok_elim src r t h
  exact ht.trans rfl

/-- C6 witness: the mocked run issues exactly that schedule. -/
theorem c6_amended_query_order_witness :
    fullSchedule = [Query.ioCounters, Query.cpuPercent,
         Query.virtualMemory, Query.virtualMemory, Query.virtualMemory,
         Query.virtualMemory,
         Query.diskUsage "/", Query.diskUsage "/", Query.diskUsage "/",
         Query.diskUsage "/"] :=
  c6_amended_query_order mockSrc mockRecord fullSchedule (by rfl)

/-- C5 counterexample: a source whose every query succeeds, but whose
disk-I/O-counters query returns no data (psutil's documented `None` result),
makes the run fail with `AttributeError` - a third failure type that is
neither `MetricsUnavailableError` nor `FilesystemNotFoundError`. -/
theorem c5_counterexample_third_failure :
    (get_system_health noneSrc).1 = Except.error Failure.noneAttr ∧
    failureClass Failure.noneAttr = "AttributeError" ∧
    failureClass Failure.noneAttr ≠ "MetricsUnavailableError" ∧
    failureClass Failure.noneAttr ≠ "FilesystemNotFoundError" :=
  ⟨by rfl, by rfl, by decide, by decide⟩

/-- C5 (amended): a failed collection either propagates the library error of
the exact query that failed - and that error is one of the two classes
`MetricsUnavailableError` (metric interface denied or unavailable) and
`FilesystemNotFoundError` (root path missing) - or, additionally, fails with
`AttributeError` when the disk-I/O-counters query returns no data; there is
no other failure type. -/
theorem c5_amended_failure_taxonomy (src : MetricsSource) (e : Failure)
    (t : List Query) (h : get_system_health src = (.error e, t)) :
    (e = Failure.noneAttr ∧ src.disk_io_counters 0 = .ok none ∧
      failureClass e = "AttributeError") ∨
    (∃ q n pe, e = Failure.queryFailed q n pe ∧
      (failureClass e = "MetricsUnavailableError" ∨
       failureClass e = "FilesystemNotFoundError") ∧
      ((q = Query.ioCounters ∧ src.disk_io_counters n = .error pe) ∨
       (q = Query.cpuPercent ∧ src.cpu_percent n = .error pe) ∨
       (q = Query.virtualMemory ∧ src.virtual_memory n = .error pe) ∨
       (q = Query.diskUsage "/" ∧ src.disk_usage "/" n = .error pe))) := by
  have hclass : ∀ q n pe, (failureClass (Failure.queryFailed q n pe) =
      "MetricsUnavailableError" ∨
      failureClass (Failure.queryFailed q n pe) = "FilesystemNotFoundError") := by
    intro q n pe
    cases pe
    · exact Or.inl rfl
    · exact Or.inr rfl
  rcases gsh_error_elim src e t h with ⟨he, hn, _⟩ | ⟨pe, h1 | h2 | h3 | h4⟩
  · exact Or.inl ⟨he, hn, by subst he; rfl⟩
  · exact Or.inr ⟨.ioCounters, 0, pe, h1.1, h1.1 ▸ hclass _ _ _,
      Or.inl ⟨rfl, h1.2.1⟩⟩
  · exact Or.inr ⟨.cpuPercent, 0, pe, h2.1, h2.1 ▸ hclass _ _ _,
      Or.inr (Or.inl ⟨rfl, h2.2.1⟩)⟩
  · obtain ⟨n, _, he, hq, _⟩ := h3
    exact Or.inr ⟨.virtualMemory, n, pe, he, he ▸ hclass _ _ _,
      Or.inr (Or.inr (Or.inl ⟨rfl, hq⟩))⟩
  · obtain ⟨n, _, he, hq, _⟩ := h4
    exact Or.inr ⟨.diskUsage "/", n, pe, he, he ▸ hclass _ _ _,
      Or.inr (Or.inr (Or.inr ⟨rfl, hq⟩))⟩

/-- C5 witness: the failing-memory run is classified by the amended
taxonomy. -/
theorem c5_amended_failure_taxonomy_witness :
    (Failure.queryFailed .virtualMemory 0 .metricsUnavailable = Failure.noneAttr ∧
      memFailSrc.disk_io_counters 0 = .ok none ∧
      failureClass (Failure.queryFailed .virtualMemory 0 .metricsUnavailable) =
        "AttributeError") ∨
    (∃ q n pe,
      Failure.queryFailed .virtualMemory 0 .metricsUnavailable =
        Failure.queryFailed q n pe ∧
      (failureClass (Failure.queryFailed .virtualMemory 0 .metricsUnavailable) =
        "MetricsUnavailableError" ∨
       failureClass (Failure.queryFailed .virtualMemory 0 .metricsUnavailable) =
        "FilesystemNotFoundError") ∧
      ((q = Query.ioCounters ∧ memFailSrc.disk_io_counters n = .error pe) ∨
       (q = Query.cpuPercent ∧ memFailSrc.cpu_percent n = .error pe) ∨
       (q = Query.virtualMemory ∧ memFailSrc.virtual_memory n = .error pe) ∨
       (q = Query.diskUsage "/" ∧ memFailSrc.disk_usage "/" n = .error pe))) :=
  c5_amended_failure_taxonomy memFailSrc
    (.queryFailed .virtualMemory 0 .metricsUnavailable)
    [.ioCounters, .cpuPercent, .virtualMemory] (by rfl)

/-- The record the drifting source produces: the memory percent read on the
fourth memory call does not match the total and used read on earlier calls. -/
def driftRecord : HealthRecord :=
  { mockRecord with memory_total := 100, memory_available := 50,
                    memory_used := 50, memory_percent := 99 }

/-- C10: within one collection the virtual-memory query is invoked four
separate times and the root-filesystem-usage query four separate times; the
memory fields need not be a consistent snapshot (a source whose calls drift
yields a recorded memory_percent different from 100 * memory_used /
memory_total recomputed from the record); and a later invocation of the
family can fail after the earlier ones succeeded, aborting the run. -/
theorem c10_repeated_queries_inconsistency :
    (∀ src r t, get_system_health src = (.ok r, t) →
      t.count Query.virtualMemory = 4 ∧ t.count (Query.diskUsage "/") = 4) ∧
    (∃ src r t, get_system_health src = (.ok r, t) ∧
      r.memory_percent ≠ 100 * (r.memory_used : Rat) / (r.memory_total : Rat)) ∧
    (∃ src v e,
      src.virtual_memory 0 = .ok v ∧
      src.virtual_memory 1 = .ok v ∧
      src.virtual_memory 2 = .ok v ∧
      src.virtual_memory 3 = .error .metricsUnavailable ∧
      get_system_health src = (.error e,
        [Query.ioCounters, Query.cpuPercent, Query.virtualMemory,
         Query.virtualMemory, Query.virtualMemory, Query.virtualMemory]) ∧
      e = .queryFailed .virtualMemory 3 .metricsUnavailable) := by
  refine ⟨?_, ?_, ?_⟩
  · intro src r t h
    obtain ⟨_, _, _, _, _, _, _, _, _, _, _, _, _, _, _, _, _, _, _, _, _, ht⟩ :=
      gsh_ok_elim src r t h
    subst ht
    constructor <;> decide
  · refine ⟨driftSrc, driftRecord, fullSchedule, by rfl, ?_⟩
    norm_num [driftRecord, mockRecord]
  · exact ⟨vmFourthFailSrc, mockVM,
      .queryFailed .virtualMemory 3 .metricsUnavailable,
      by rfl, by rfl, by rfl, by rfl, by rfl, rfl⟩

/-- A metrics source whose successful query results are all within the
stated domains: percentages in [0,100] and byte counts non-negative. -/
def InDomainSource (src : MetricsSource) : Prop :=
  (∀ n q, src.cpu_percent n = .ok q → 0 ≤ q ∧ q ≤ 100) ∧
  (∀ n v, src.virtual_memory n = .ok v →
    0 ≤ v.total ∧ 0 ≤ v.available ∧ 0 ≤ v.used ∧
    0 ≤ v.percent ∧ v.percent ≤ 100) ∧
  (∀ p n d, src.disk_usage p n = .ok d →
    0 ≤ d.total ∧ 0 ≤ d.used ∧ 0 ≤ d.free ∧
    0 ≤ d.percent ∧ d.percent ≤ 100) ∧
  (∀ n c, src.disk_io_counters n = .ok (some c) →
    0 ≤ c.read_bytes ∧ 0 ≤ c.write_bytes)

/-- A record whose numeric fields are all within the stated domains. -/
def InDomainRecord (r : HealthRecord) : Prop :=
  (0 ≤ r.cpu_usage ∧ r.cpu_usage ≤ 100) ∧
  0 ≤ r.memory_total ∧ 0 ≤ r.memory_available ∧ 0 ≤ r.memory_used ∧
  (0 ≤ r.memory_percent ∧ r.memory_percent ≤ 100) ∧
  0 ≤ r.disk_total ∧ 0 ≤ r.disk_used ∧ 0 ≤ r.disk_free ∧
  (0 ≤ r.disk_percent ∧ r.disk_percent ≤ 100) ∧
  0 ≤ r.disk_read_bytes ∧ 0 ≤ r.disk_write_bytes

/-- The serialized output up to and excluding the rendered cpu_usage value. -/
def serializedPre : String :=
  "\x7b\n    \"status\": \"healthy\",\n    \"cpu_usage\": "

/-- The serialized output after the rendered cpu_usage value: the remaining
ten fields in the dict-literal order, each on its own four-space-indented
line, then the closing brace. -/
def serializedPost (fr : Rat → String) (r : HealthRecord) : String :=
  ",\n    \"memory_total\": " ++ toString r.memory_total ++
  ",\n    \"memory_available\": " ++ toString r.memory_available ++
  ",\n    \"memory_used\": " ++ toString r.memory_used ++
  ",\n    \"memory_percent\": " ++ fr r.memory_percent ++
  ",\n    \"disk_total\": " ++ toString r.disk_total ++
  ",\n    \"disk_used\": " ++ toString r.disk_used ++
  ",\n    \"disk_free\": " ++ toString r.disk_free ++
  ",\n    \"disk_percent\": " ++ fr r.disk_percent ++
  ",\n    \"disk_read_bytes\": " ++ toString r.disk_read_bytes ++
  ",\n    \"disk_write_bytes\": " ++ toString r.disk_write_bytes ++
  "\n\x7d"

/-- The twelve field names, in the order of the dict literal of
lines 22-35, which is the order of the specification's table. -/
def twelveKeys : List String :=
  ["status", "cpu_usage", "memory_total", "memory_available", "memory_used",
   "memory_percent", "disk_total", "disk_used", "disk_free", "disk_percent",
   "disk_read_bytes", "disk_write_bytes"]

set_option maxRecDepth 40000 in
/-- The serializer, applied to any record with the constant status, produces
exactly the indent-4 JSON template: opening brace, twelve member lines in
dict order each indented by four spaces and comma-terminated except the
last, closing brace. -/
lemma dumps_healthDict_template (fr : Rat → String) (r : HealthRecord)
    (hs : r.status = "healthy") :
    dumps fr (healthDict r) =
      serializedPre ++ fr r.cpu_usage ++ serializedPost fr r := by
  rw [String.ext_iff]
  simp [dumps, membersBody, memberLine, healthDict, renderJVal, renderJStr,
    serializedPre, serializedPost, hs, String.data_append]

/-- C2: every successful run writes to standard output exactly the twelve
fields in the dict-literal order (the order of the specification's table) as
indent-4 multi-line JSON, one blob terminated by a newline; and when the
metrics source returns in-domain values, every field of the record is within
its stated domain (percentages in [0,100], byte counts non-negative). -/
theorem c2_output_format_and_domains (fr : Rat → String) (src : MetricsSource)
    (r : HealthRecord) (t : List Query)
    (h : get_system_health src = (.ok r, t)) :
    stdoutOf fr src =
      some (serializedPre ++ fr r.cpu_usage ++ serializedPost fr r ++ "\n") ∧
    (healthDict r).map Prod.fst = twelveKeys ∧
    (InDomainSource src → InDomainRecord r) := by
  obtain ⟨dio, cpu, vm0, vm1, vm2, vm3, du0, du1, du2, du3,
    h1, h2, h3, h4, h5, h6, h7, h8, h9, h10, hr, _⟩ := gsh_ok_elim src r t h
  subst hr
  refine ⟨?_, by rfl, ?_⟩
  · simp only [stdoutOf, h]
    rw [dumps_healthDict_template fr _ rfl]
  · intro hd
    obtain ⟨hdcpu, hdvm, hddu, hdio⟩ := hd
    obtain ⟨c1, c2⟩ := hdcpu 0 cpu h2
    obtain ⟨v0t, _, _, _, _⟩ := hdvm 0 vm0 h3
    obtain ⟨_, v1a, _, _, _⟩ := hdvm 1 vm1 h4
    obtain ⟨_, _, v2u, _, _⟩ := hdvm 2 vm2 h5
    obtain ⟨_, _, _, v3p1, v3p2⟩ := hdvm 3 vm3 h6
    obtain ⟨d0t, _, _, _, _⟩ := hddu "/" 0 du0 h7
    obtain ⟨_, d1u, _, _, _⟩ := hddu "/" 1 du1 h8
    obtain ⟨_, _, d2f, _, _⟩ := hddu "/" 2 du2 h9
    obtain ⟨_, _, _, d3p1, d3p2⟩ := hddu "/" 3 du3 h10
    obtain ⟨iorb, iowb⟩ := hdio 0 dio h1
    exact ⟨⟨c1, c2⟩, v0t, v1a, v2u, ⟨v3p1, v3p2⟩,
      d0t, d1u, d2f, ⟨d3p1, d3p2⟩, iorb, iowb⟩

/-- The design document's mocked source is in-domain. -/
lemma mockSrc_inDomain : InDomainSource mockSrc := by
  refine ⟨?_, ?_, ?_, ?_⟩
  · intro n q h
    simp only [mockSrc, Except.ok.injEq] at h
    subst h
    norm_num
  · intro n v h
    simp only [mockSrc, Except.ok.injEq] at h
    subst h
    refine ⟨by norm_num [mockVM], by norm_num [mockVM], by norm_num [mockVM],
      by norm_num [mockVM], by norm_num [mockVM]⟩
  · intro p n d h
    simp only [mockSrc, Except.ok.injEq] at h
    subst h
    refine ⟨by norm_num [mockDU], by norm_num [mockDU], by norm_num [mockDU],
      by norm_num [mockDU], by norm_num [mockDU]⟩
  · intro n c h
    simp only [mockSrc, Except.ok.injEq, Option.some.injEq] at h
    subst h
    exact ⟨by norm_num [mockDio], by norm_num [mockDio]⟩

/-- C2 witness: the mocked run's output is the concrete template for the
mocked record, the keys are the twelve in order, and the mocked source
being in-domain gives an in-domain record. -/
theorem c2_output_format_and_domains_witness :
    (stdoutOf (fun _ => "50.0") mockSrc =
      some (serializedPre ++ (fun _ : Rat => "50.0") mockRecord.cpu_usage ++
        serializedPost (fun _ => "50.0") mockRecord ++ "\n") ∧
    (healthDict mockRecord).map Prod.fst = twelveKeys ∧
    (InDomainSource mockSrc → InDomainRecord mockRecord)) ∧
    InDomainRecord mockRecord :=
  have h := c2_output_format_and_domains (fun _ => "50.0") mockSrc mockRecord
    fullSchedule (by rfl)
  ⟨h, h.2.2 mockSrc_inDomain⟩

/-- A source identical to the mock except for the CPU sample value,
modelling a second run against the same static mocked metrics in which only
the live CPU measurement differs. -/
def cpuVarSrc : MetricsSource :=
  { mockSrc with cpu_percent := fun _ => .ok (77.5 : Rat) }

/-- The record the CPU-variant source produces. -/
def cpuVarRecord : HealthRecord := { mockRecord with cpu_usage := 77.5 }

/-- C7: for two runs whose sources agree on the memory, disk-usage and
I/O-counter queries (a static mocked source, with only the CPU sample free
to vary), the two serialized outputs are byte-identical except for the
rendered cpu_usage value: they share one prefix and one suffix around it.
And if the CPU samples also agree, the outputs are byte-identical: the
output is a deterministic function of the query results. -/
theorem c7_deterministic_modulo_cpu (fr : Rat → String)
    (src1 src2 : MetricsSource)
    (hvm : src1.virtual_memory = src2.virtual_memory)
    (hdu : src1.disk_usage = src2.disk_usage)
    (hio : src1.disk_io_counters = src2.disk_io_counters)
    (r1 r2 : HealthRecord) (t1 t2 : List Query)
    (h1 : get_system_health src1 = (.ok r1, t1))
    (h2 : get_system_health src2 = (.ok r2, t2)) :
    (∃ pre post,
      stdoutOf fr src1 = some (pre ++ fr r1.cpu_usage ++ post) ∧
      stdoutOf fr src2 = some (pre ++ fr r2.cpu_usage ++ post)) ∧
    (src1.cpu_percent = src2.cpu_percent →
      stdoutOf fr src1 = stdoutOf fr src2) := by
  obtain ⟨dio, cpu, vm0, vm1, vm2, vm3, du0, du1, du2, du3,
    a1, a2, a3, a4, a5, a6, a7, a8, a9, a10, hr1, _⟩ := gsh_ok_elim src1 r1 t1 h1
  obtain ⟨dio', cpu', vm0', vm1', vm2', vm3', du0', du1', du2', du3',
    b1, b2, b3, b4, b5, b6, b7, b8, b9, b10, hr2, _⟩ := gsh_ok_elim src2 r2 t2 h2
  rw [hio] at a1
  rw [hvm] at a3 a4 a5 a6
  rw [hdu] at a7 a8 a9 a10
  obtain rfl : dio = dio' := by
    have := a1.symm.trans b1
    simpa using this
  obtain rfl : vm0 = vm0' := by
    have := a3.symm.trans b3
    simpa using this
  obtain rfl : vm1 = vm1' := by
    have := a4.symm.trans b4
    simpa using this
  obtain rfl : vm2 = vm2' := by
    have := a5.symm.trans b5
    simpa using this
  obtain rfl : vm3 = vm3' := by
    have := a6.symm.trans b6
    simpa using this
  obtain rfl : du0 = du0' := by
    have := a7.symm.trans b7
    simpa using this
  obtain rfl : du1 = du1' := by
    have := a8.symm.trans b8
    simpa using this
  obtain rfl : du2 = du2' := by
    have := a9.symm.trans b9
    simpa using this
  obtain rfl : du3 = du3' := by
    have := a10.symm.trans b10
    simpa using this
  have hpost : serializedPost fr r2 = serializedPost fr r1 := by
    rw [hr1, hr2]
    simp only [serializedPost]
  have hcpu1 : r1.cpu_usage = cpu := by rw [hr1]
  have hcpu2 : r2.cpu_usage = cpu' := by rw [hr2]
  constructor
  · refine ⟨serializedPre, serializedPost fr r1 ++ "\n", ?_, ?_⟩
    · simp only [stdoutOf, h1]
      rw [dumps_healthDict_template fr r1 (by rw [hr1]),
        String.append_assoc]
    · simp only [stdoutOf, h2]
      rw [dumps_healthDict_template fr r2 (by rw [hr2]),
        String.append_assoc, hpost]
  · intro hcpueq
    rw [hcpueq] at a2
    obtain rfl : cpu = cpu' := by
      have := a2.symm.trans b2
      simpa using this
    have : r1 = r2 := by rw [hr1, hr2]
    simp only [stdoutOf, h1, h2, this]

/-- C7 witness: two runs against the static mock, differing only in the CPU
sample, share the prefix and suffix around the rendered cpu value; with
equal CPU queries the outputs would be byte-identical. -/
theorem c7_deterministic_modulo_cpu_witness :
    (∃ pre post,
      stdoutOf (fun _ => "50.0") mockSrc =
        some (pre ++ (fun _ : Rat => "50.0") mockRecord.cpu_usage ++ post) ∧
      stdoutOf (fun _ => "50.0") cpuVarSrc =
        some (pre ++ (fun _ : Rat => "50.0") cpuVarRecord.cpu_usage ++ post)) ∧
    (mockSrc.cpu_percent = cpuVarSrc.cpu_percent →
      stdoutOf (fun _ => "50.0") mockSrc = stdoutOf (fun _ => "50.0") cpuVarSrc) :=
  c7_deterministic_modulo_cpu (fun _ => "50.0") mockSrc cpuVarSrc rfl rfl rfl
    mockRecord cpuVarRecord fullSchedule fullSchedule (by rfl) (by rfl)

/-- On failure, standard error carries the interpreter traceback: the
monitor.py source line of the failing call and the exception class. -/
lemma stderr_decomp (src : MetricsSource) (e : Failure) (t : List Query)
    (h : get_system_health src = (.error e, t)) :
    stderrOf src = "Traceback (most recent call last):\n    " ++
      failingSourceLine e ++ "\n" ++ failureClass e := by
  simp only [stderrOf, h]

/-- C8: a successful run exits with code 0 (and stderr empty); every
collection failure terminates with a non-zero exit code and a standard-error
text containing the psutil query name of the failing metric category -
cpu_percent (CPU), virtual_memory (memory), disk_usage (disk) or
disk_io_counters (I/O counters). -/
theorem c8_exit_code_and_diagnostic (src : MetricsSource) :
    (∀ r t, get_system_health src = (.ok r, t) →
      exitCodeOf src = 0 ∧ stderrOf src = "") ∧
    (∀ e t, get_system_health src = (.error e, t) →
      exitCodeOf src ≠ 0 ∧
      (categoryToken e = "cpu_percent" ∨ categoryToken e = "virtual_memory" ∨
       categoryToken e = "disk_usage" ∨ categoryToken e = "disk_io_counters") ∧
      ∃ pre post, stderrOf src = pre ++ categoryToken e ++ post) := by
  constructor
  · intro r t h
    constructor
    · simp only [exitCodeOf, h]
    · simp only [stderrOf, h]
  · intro e t h
    have hexit : exitCodeOf src ≠ 0 := by
      simp only [exitCodeOf, h]
      decide
    have hdec := stderr_decomp src e t h
    refine ⟨hexit, ?_⟩
    rcases gsh_error_elim src e t h with ⟨he, _, _⟩ | ⟨pe, hc | hc | hc | hc⟩
    · subst he
      refine ⟨Or.inr (Or.inr (Or.inr rfl)), ?_⟩
      refine ⟨"Traceback (most recent call last):\n    " ++ "disk_read_bytes = ",
        ".read_bytes" ++ "\n" ++ failureClass .noneAttr, ?_⟩
      rw [hdec, String.ext_iff]
      simp [failingSourceLine, categoryToken, String.data_append]
    · obtain ⟨he, _, _⟩ := hc
      subst he
      refine ⟨Or.inr (Or.inr (Or.inr rfl)), ?_⟩
      refine ⟨"Traceback (most recent call last):\n    ",
        " = psutil.disk_io_counters()" ++ "\n" ++
          failureClass (.queryFailed .ioCounters 0 pe), ?_⟩
      rw [hdec, String.ext_iff]
      simp [failingSourceLine, categoryToken, String.data_append]
    · obtain ⟨he, _, _⟩ := hc
      subst he
      refine ⟨Or.inl rfl, ?_⟩
      refine ⟨"Traceback (most recent call last):\n    " ++ "\"cpu_usage\": psutil.",
        "(interval=1)," ++ "\n" ++ failureClass (.queryFailed .cpuPercent 0 pe), ?_⟩
      rw [hdec, String.ext_iff]
      simp [failingSourceLine, categoryToken, String.data_append]
    · obtain ⟨n, hn, he, _, _⟩ := hc
      subst he
      refine ⟨Or.inr (Or.inl rfl), ?_⟩
      interval_cases n
      · refine ⟨"Traceback (most recent call last):\n    " ++
          "\"memory_total\": psutil.",
          "().total," ++ "\n" ++ failureClass (.queryFailed .virtualMemory 0 pe), ?_⟩
        rw [hdec, String.ext_iff]
        simp [failingSourceLine, categoryToken, String.data_append]
      · refine ⟨"Traceback (most recent call last):\n    " ++
          "\"memory_available\": psutil.",
          "().available," ++ "\n" ++
            failureClass (.queryFailed .virtualMemory 1 pe), ?_⟩
        rw [hdec, String.ext_iff]
        simp [failingSourceLine, categoryToken, String.data_append]
      · refine ⟨"Traceback (most recent call last):\n    " ++
          "\"memory_used\": psutil.",
          "().used," ++ "\n" ++ failureClass (.queryFailed .virtualMemory 2 pe), ?_⟩
        rw [hdec, String.ext_iff]
        simp [failingSourceLine, categoryToken, String.data_append]
      · refine ⟨"Traceback (most recent call last):\n    " ++
          "\"memory_percent\": psutil.",
          "().percent," ++ "\n" ++
            failureClass (.queryFailed .virtualMemory 3 pe), ?_⟩
        rw [hdec, String.ext_iff]
        simp [failingSourceLine, categoryToken, String.data_append]
    · obtain ⟨n, hn, he, _, _⟩ := hc
      subst he
      refine ⟨Or.inr (Or.inr (Or.inl rfl)), ?_⟩
      interval_cases n
      · refine ⟨"Traceback (most recent call last):\n    " ++
          "\"disk_total\": psutil.",
          "(\x27/\x27).total," ++ "\n" ++
            failureClass (.queryFailed (.diskUsage "/") 0 pe), ?_⟩
        rw [hdec, String.ext_iff]
        simp [failingSourceLine, categoryToken, String.data_append]
      · refine ⟨"Traceback (most recent call last):\n    " ++
          "\"disk_used\": psutil.",
          "(\x27/\x27).used," ++ "\n" ++
            failureClass (.queryFailed (.diskUsage "/") 1 pe), ?_⟩
        rw [hdec, String.ext_iff]
        simp [failingSourceLine, categoryToken, String.data_append]
      · refine ⟨"Traceback (most recent call last):\n    " ++
          "\"disk_free\": psutil.",
          "(\x27/\x27).free," ++ "\n" ++
            failureClass (.queryFailed (.diskUsage "/") 2 pe), ?_⟩
        rw [hdec, String.ext_iff]
        simp [failingSourceLine, categoryToken, String.data_append]
      · refine ⟨"Traceback (most recent call last):\n    " ++
          "\"disk_percent\": psutil.",
          "(\x27/\x27).percent," ++ "\n" ++
            failureClass (.queryFailed (.diskUsage "/") 3 pe), ?_⟩
        rw [hdec, String.ext_iff]
        simp [failingSourceLine, categoryToken, String.data_append]

/-- C8 witness: the mocked run exits 0 with empty stderr; the
failing-memory run exits non-zero with a diagnostic naming the memory
category. -/
theorem c8_exit_code_and_diagnostic_witness :
    (exitCodeOf mockSrc = 0 ∧ stderrOf mockSrc = "") ∧
    (exitCodeOf memFailSrc ≠ 0 ∧
      (categoryToken (.queryFailed .virtualMemory 0 .metricsUnavailable) =
        "cpu_percent" ∨
       categoryToken (.queryFailed .virtualMemory 0 .metricsUnavailable) =
        "virtual_memory" ∨
       categoryToken (.queryFailed .virtualMemory 0 .metricsUnavailable) =
        "disk_usage" ∨
       categoryToken (.queryFailed .virtualMemory 0 .metricsUnavailable) =
        "disk_io_counters") ∧
      ∃ pre post, stderrOf memFailSrc = pre ++
        categoryToken (.queryFailed .virtualMemory 0 .metricsUnavailable) ++ post) :=
  ⟨(c8_exit_code_and_diagnostic mockSrc).1 mockRecord fullSchedule (by rfl),
   (c8_exit_code_and_diagnostic memFailSrc).2
     (.queryFailed .virtualMemory 0 .metricsUnavailable)
     [.ioCounters, .cpuPercent, .virtualMemory] (by rfl)⟩

/-- C10 witness: the mocked successful run issues the virtual-memory query
four times and the disk-usage query four times. -/
theorem c10_repeated_queries_inconsistency_witness :
    fullSchedule.count Query.virtualMemory = 4 ∧
    fullSchedule.count (Query.diskUsage "/") = 4 :=
  c10_repeated_queries_inconsistency.1 mockSrc mockRecord fullSchedule (by rfl)
